import Mathlib

/-!
Verification of the resilient connection and reliability layer of the
AzSql-fastmcp repository, shallowly embedded in Lean 4.

Embedding conventions:
* Python `datetime` values are modelled as whole seconds since `datetime.min`
  (a natural number); `timedelta.seconds` — the *component* of a nonnegative
  timedelta, not `total_seconds()` — is the total elapsed seconds modulo
  86400 (one day).
* `time.time()` timestamps, delays and response times are rationals.
* Python `dict` objects are association lists with distinct keys.
* Exceptions become explicit error values (`Option`/`Except`).
-/

/- ===================== TTL cache (client/agentic_sql_client.py) =====================

Source, `DatabaseInfo` dataclass:

    last_updated: datetime = field(default_factory=datetime.now)
    cache_ttl: int = 300  # 5 minutes cache TTL

    @property
    def is_cache_valid(self) -> bool:
        return (datetime.now() - self.last_updated).seconds < self.cache_ttl

    def invalidate_cache(self):
        self.last_updated = datetime.min
-/

/-- The `.seconds` attribute of a nonnegative Python `timedelta`: the
seconds component after normalisation into (days, seconds, microseconds),
i.e. the total elapsed whole seconds modulo 86400. -/
def timedeltaSeconds (elapsed : Nat) : Nat := elapsed % 86400

/-- The `DatabaseInfo` dataclass of `client/agentic_sql_client.py`.
Datetimes are whole seconds since `datetime.min` (so `datetime.min = 0`). -/
structure DatabaseInfo where
  name : String
  version : String
  tables : List String
  total_tables : Nat
  server_info : String
  connection_status : String
  last_updated : Nat
  cache_ttl : Nat
deriving DecidableEq

/-- `DatabaseInfo.is_cache_valid`, evaluated at current time `now`:
`(datetime.now() - self.last_updated).seconds < self.cache_ttl`. -/
def DatabaseInfo.is_cache_valid (d : DatabaseInfo) (now : Nat) : Bool :=
  decide (timedeltaSeconds (now - d.last_updated) < d.cache_ttl)

/-- `DatabaseInfo.invalidate_cache`: sets `last_updated = datetime.min`. -/
def DatabaseInfo.invalidate_cache (d : DatabaseInfo) : DatabaseInfo :=
  { d with last_updated := 0 }

/-- A concrete `DatabaseInfo` whose cache was written at time `t0`
(seconds since `datetime.min`) with the default 300-second TTL. -/
def dbInfoAt (t0 : Nat) : DatabaseInfo :=
  { name := "master", version := "v1", tables := ["Sales"], total_tables := 1,
    server_info := "srv", connection_status := "Connected",
    last_updated := t0, cache_ttl := 300 }

/- ================ Circuit breaker (client/agentic_sql_client.py) ================

Source, `AgenticSQLClient`:

    self._circuit_breaker_failures = 0
    self._circuit_breaker_last_failure = 0
    self._circuit_breaker_threshold = 5
    self._circuit_breaker_timeout = 60

    def _is_circuit_breaker_open(self) -> bool:
        if self._circuit_breaker_failures >= self._circuit_breaker_threshold:
            time_since_failure = time.time() - self._circuit_breaker_last_failure
            if time_since_failure < self._circuit_breaker_timeout:
                return True
            else:
                # Reset circuit breaker after timeout
                self._circuit_breaker_failures = 0
        return False

    def _record_failure(self):
        self._circuit_breaker_failures += 1
        self._circuit_breaker_last_failure = time.time()

    def _record_success(self):
        if self._circuit_breaker_failures > 0:
            self._circuit_breaker_failures = max(0, self._circuit_breaker_failures - 1)
-/

/-- The circuit-breaker fields of `AgenticSQLClient`.  `failures` is a
natural number: it starts at 0 and is only ever incremented, reset to 0, or
decremented while positive, so it never goes negative in the source. -/
structure CircuitBreakerState where
  failures : Nat
  last_failure : ℚ
  threshold : Nat
  timeout : ℚ
deriving DecidableEq

/-- `_is_circuit_breaker_open`, evaluated at current time `now`; returns the
boolean result together with the (possibly reset) state. -/
def is_circuit_breaker_open (s : CircuitBreakerState) (now : ℚ) :
    Bool × CircuitBreakerState :=
  if s.failures ≥ s.threshold then
    if now - s.last_failure < s.timeout then (true, s)
    else (false, { s with failures := 0 })
  else (false, s)

/-- `_record_failure`, evaluated at current time `now`. -/
def record_failure (s : CircuitBreakerState) (now : ℚ) : CircuitBreakerState :=
  { s with failures := s.failures + 1, last_failure := now }

/-- `_record_success`. -/
def record_success (s : CircuitBreakerState) : CircuitBreakerState :=
  if s.failures > 0 then { s with failures := max 0 (s.failures - 1) } else s

/-- Five consecutive `_record_failure` calls at times `t1 ≤ ... ≤ t5`. -/
def record_five_failures (s : CircuitBreakerState) (t1 t2 t3 t4 t5 : ℚ) :
    CircuitBreakerState :=
  record_failure (record_failure (record_failure (record_failure
    (record_failure s t1) t2) t3) t4) t5

/- ============ Health monitor (src/server/connection_monitor.py) ============

Source, `ConnectionState` / `ConnectionHealth` / `ConnectionHealthMonitor`:

    class ConnectionState(Enum):
        HEALTHY = "healthy"; DEGRADED = "degraded"; UNHEALTHY = "unhealthy"
        CLOSED = "closed"; UNKNOWN = "unknown"

    @dataclass
    class ConnectionHealth:
        state: ConnectionState
        last_check: float
        response_time_ms: float
        error_count: int
        last_error: Optional[str] = None
        recovery_attempts: int = 0

`_check_connection_health` ends with (success branch, then except branch):

        health.state = ConnectionState.HEALTHY
        health.last_check = time.time()
        health.response_time_ms = response_time
        health.error_count = max(0, health.error_count - 1)  # Gradual recovery
        health.last_error = None
    except Exception as e:
        health.error_count += 1
        health.last_check = time.time()
        health.response_time_ms = response_time
        health.last_error = error_msg
        if health.error_count >= self.max_errors:
            health.state = ConnectionState.UNHEALTHY
        elif health.error_count >= self.max_errors // 2:
            health.state = ConnectionState.DEGRADED
        else:
            health.state = ConnectionState.HEALTHY
-/

/-- `ConnectionState` enumeration. -/
inductive ConnectionState where
  | healthy
  | degraded
  | unhealthy
  | closed
  | unknown
deriving DecidableEq

/-- `ConnectionHealth` dataclass.  `error_count` is a natural number: it is
initialised to 0 and only incremented or decremented-while-positive. -/
structure ConnectionHealth where
  state : ConnectionState
  last_check : ℚ
  response_time_ms : ℚ
  error_count : Nat
  last_error : Option String := none
  recovery_attempts : Nat := 0
deriving DecidableEq

/-- One `_check_connection_health` step.  `probe = none` means the try-block
(create, `SELECT 1`, close) succeeded; `probe = some msg` means it raised an
exception whose string is `msg`.  `now` is `time.time()` at the update and
`rt` the measured response time in milliseconds. -/
def check_connection_health (max_errors : Nat) (h : ConnectionHealth)
    (probe : Option String) (now rt : ℚ) : ConnectionHealth :=
  match probe with
  | none =>
      { h with state := ConnectionState.healthy, last_check := now,
               response_time_ms := rt,
               error_count := h.error_count - 1,
               last_error := none }
  | some msg =>
      let ec := h.error_count + 1
      { h with error_count := ec, last_check := now, response_time_ms := rt,
               last_error := some msg,
               state := if ec ≥ max_errors then ConnectionState.unhealthy
                        else if ec ≥ max_errors / 2 then ConnectionState.degraded
                        else ConnectionState.healthy }

/-- The `connection_health` dict of the monitor: an association list with
distinct keys, keyed by connection id. -/
def HealthMap := List (String × ConnectionHealth)

/-- Python `dict.get(key)`: first matching entry, else `None`. -/
def dictGet (m : HealthMap) (id : String) : Option ConnectionHealth :=
  match m with
  | [] => none
  | (k, v) :: rest => if k = id then some v else dictGet rest id

/-- `get_connection_health`: `self.connection_health.get(connection_id)`. -/
def get_connection_health (m : HealthMap) (id : String) : Option ConnectionHealth :=
  dictGet m id

/-- `is_connection_healthy`: `False` when there is no record, else
`state in [HEALTHY, DEGRADED]`. -/
def is_connection_healthy (m : HealthMap) (id : String) : Bool :=
  match get_connection_health m id with
  | none => false
  | some h =>
      decide (h.state = ConnectionState.healthy ∨ h.state = ConnectionState.degraded)

/-- The health-record effect of `stop_monitoring`: `del self.connection_health[id]`
when present (deleting every binding of `id` from the association list). -/
def stop_monitoring_health (m : HealthMap) (id : String) : HealthMap :=
  match m with
  | [] => []
  | (k, v) :: rest =>
      if k = id then stop_monitoring_health rest id
      else (k, v) :: stop_monitoring_health rest id

/- ============ Recovery manager (src/server/connection_monitor.py) ============

Source, `ConnectionRecoveryManager.recover_connection`:

    for attempt in range(1, self.max_retry_attempts + 1):
        try:
            delay = self.base_delay * (2 ** (attempt - 1))  # Exponential backoff
            if attempt > 1:
                await asyncio.sleep(delay)
            conn = await connection_factory.create_connection()
            cursor = conn.cursor(); cursor.execute("SELECT 1"); cursor.fetchone()
            cursor.close()
            await connection_factory.close_connection(conn)
            self._recovery_stats[connection_id] = {"last_recovery": time.time(),
                "attempts_used": attempt, "success": True}
            return True
        except Exception as e:
            if attempt == self.max_retry_attempts:
                self._recovery_stats[connection_id] = {"last_recovery": time.time(),
                    "attempts_used": attempt, "success": False}
                return False
    return False
-/

/-- The recovery-stats record written for an identity: the `attempts_used`
and `success` fields (`last_recovery` is the wall-clock write time, which the
claims do not constrain). -/
structure RecoveryStats where
  attempts_used : Nat
  success : Bool
deriving DecidableEq

/-- Result of one `recover_connection` call: the boolean return value, the
number of creation attempts actually made, the list of waits performed (in
order, in seconds), and the stats record written (none only if the `for`
loop body never ran, i.e. `max_retry_attempts = 0`). -/
structure RecoveryResult where
  result : Bool
  attempts_made : Nat
  waits : List ℚ
  stats : Option RecoveryStats
deriving DecidableEq

/-- Loop body of `recover_connection`, by structural recursion on the number
of remaining loop iterations.  `outcome k = true` means the k-th attempt
(create + probe + close) succeeds; `false` means it raises.  `attempt` is the
current 1-based attempt index; `remaining + attempt - 1 = max_retry_attempts`
throughout, so `remaining = 1` exactly when `attempt == max_retry_attempts`. -/
def recover_connection_aux (outcome : Nat → Bool) (base : ℚ) :
    Nat → Nat → RecoveryResult
  | _, 0 => ⟨false, 0, [], none⟩
  | attempt, remaining + 1 =>
      let waits : List ℚ :=
        if attempt > 1 then [base * 2 ^ (attempt - 1)] else []
      if outcome attempt then
        ⟨true, 1, waits, some ⟨attempt, true⟩⟩
      else if remaining = 0 then
        ⟨false, 1, waits, some ⟨attempt, false⟩⟩
      else
        let r := recover_connection_aux outcome base (attempt + 1) remaining
        ⟨r.result, r.attempts_made + 1, waits ++ r.waits, r.stats⟩

/-- `recover_connection` with `max_retry_attempts = maxA` and
`base_delay = base`, run against attempt outcomes `outcome`. -/
def recover_connection (outcome : Nat → Bool) (maxA : Nat) (base : ℚ) :
    RecoveryResult :=
  recover_connection_aux outcome base 1 maxA

/- ======== Connection factory (src/connection/sql_connection_factory.py) ========

Source, `create_connection` (decorator and error wrapping):

    @retry(
        stop=stop_after_attempt(3),
        wait=wait_exponential(multiplier=1, min=2, max=10)
    )
    async def create_connection(self) -> pyodbc.Connection:
        ...
        def connect():
            try:
                ... conn = pyodbc.connect(conn_string) ...
                return conn
            except pyodbc.Error as e:
                raise ConnectionError(f"Failed to connect to database: ...")
        connection = await loop.run_in_executor(None, connect)
        return connection

With tenacity defaults (`reraise=False`), once `stop_after_attempt(3)` is
reached the decorator raises `tenacity.RetryError` wrapping the last failed
attempt; the underlying `ConnectionError` is the wrapped exception, not the
exception the caller receives.
-/

/-- Errors that can emerge from `create_connection`: the `ConnectionError`
raised inside `connect()` when `pyodbc.connect` fails, and the
`tenacity.RetryError` that the `@retry` decorator raises (wrapping the last
attempt's exception) once `stop_after_attempt` is reached. -/
inductive FactoryError where
  | connectionError (msg : String)
  | retryError (last : FactoryError)
deriving DecidableEq

/-- The `ConnectionError` message built by `connect()` from the underlying
`pyodbc.Error` string. -/
def connectErrorMsg (pyodbcMsg : String) : String :=
  "Failed to connect to database: " ++ pyodbcMsg

/-- `tenacity.wait_exponential(multiplier=1, min=2, max=10)` evaluated after
the failure of attempt number `n` (1-based):
`max(max(0, min), min(multiplier * 2 ** n, max))`. -/
def waitExponential (n : Nat) : ℚ :=
  max (max 0 2) (min ((1 : ℚ) * 2 ^ n) 10)

/-- The `@retry`-decorated `create_connection`.  `pyodbcErr k = some msg`
means the k-th call of `connect()` hits a `pyodbc.Error` with string `msg`
(so `connect()` raises `ConnectionError(connectErrorMsg msg)`); `none` means
it returns a connection.  Structural recursion on the remaining attempts
allowed by `stop_after_attempt`; returns the outcome and the backoff waits
performed between attempts. -/
def create_connection_aux (pyodbcErr : Nat → Option String) :
    Nat → Nat → Except FactoryError Unit × List ℚ
  | _, 0 => (Except.ok (), [])
  | attempt, remaining + 1 =>
      match pyodbcErr attempt with
      | none => (Except.ok (), [])
      | some msg =>
          if remaining = 0 then
            (Except.error (FactoryError.retryError
              (FactoryError.connectionError (connectErrorMsg msg))), [])
          else
            let r := create_connection_aux pyodbcErr (attempt + 1) remaining
            (r.1, waitExponential attempt :: r.2)

/-- `create_connection` with its source configuration
`stop_after_attempt(3)`. -/
def create_connection (pyodbcErr : Nat → Option String) :
    Except FactoryError Unit × List ℚ :=
  create_connection_aux pyodbcErr 1 3

/- ============== Pooled acquire (src/connection/sql_connection_factory.py) ==============

Source, `get_pooled_connection`:

    @asynccontextmanager
    async def get_pooled_connection(self):
        if not self._connection_pool or self._pool_size == 0:
            conn = await self.create_connection()
            try:
                yield conn
            finally:
                await self.close_connection(conn)
        else:
            conn = await self._connection_pool.get()
            try:
                cursor = conn.cursor()
                cursor.execute("SELECT 1")
                cursor.close()
                yield conn
            except Exception as e:
                try:
                    conn.close()
                except:
                    pass
                conn = await self.create_connection()
                yield conn
            finally:
                try:
                    await self._connection_pool.put(conn)
                except:
                    try:
                        conn.close()
                    except:
                        pass
-/

/-- Where a connection yielded by `get_pooled_connection` came from:
popped from the pool queue, or freshly built by `create_connection`. -/
inductive ConnOrigin where
  | pooled
  | fresh
deriving DecidableEq

/-- What `get_pooled_connection` hands to the `async with` body on entry:
either a connection (with its origin, and whether the `SELECT 1` validation
probe was executed on it before yielding) or a propagated creation error. -/
inductive AcquireEntry where
  | yielded (origin : ConnOrigin) (probed : Bool)
  | creationFailed (e : FactoryError)
deriving DecidableEq

/-- Entry behaviour of `get_pooled_connection`, up to the first `yield`.
`poolingEnabled` is `self._connection_pool and self._pool_size != 0`;
`probeOk` tells whether `SELECT 1` on the pooled connection succeeds;
`createRes` is the outcome `create_connection` would have (used on the
no-pool path, and on the pooled path when the probe fails). -/
def get_pooled_connection_entry (poolingEnabled : Bool) (probeOk : Bool)
    (createRes : Except FactoryError Unit) : AcquireEntry :=
  if poolingEnabled = false then
    match createRes with
    | Except.ok _ => AcquireEntry.yielded ConnOrigin.fresh false
    | Except.error e => AcquireEntry.creationFailed e
  else
    if probeOk then AcquireEntry.yielded ConnOrigin.pooled true
    else
      match createRes with
      | Except.ok _ => AcquireEntry.yielded ConnOrigin.fresh false
      | Except.error e => AcquireEntry.creationFailed e

/-- State of one connection at the moment the caller's `async with` scope
has exited (i.e. when `__aexit__` returns or raises):
* `inPool` — returned to the pool queue, open;
* `closedConn` — `close()` was called on it;
* `closedInPool` — `close()` was called on it and it was nevertheless `put`
  back into the pool queue by the `finally` block;
* `heldByGenerator` — still referenced only by the suspended generator:
  neither in the pool nor closed when the scope exits. -/
inductive Disposition where
  | inPool
  | closedConn
  | closedInPool
  | heldByGenerator
deriving DecidableEq

/-- Dispositions, at scope exit, of the connection popped from the pool
(`pooledConn`) and of the connection built by `create_connection` inside the
generator (`freshConn`), `none` when no such connection exists on the path;
plus whether the caller's scope exits with an error. -/
structure ScopeExit where
  pooledConn : Option Disposition
  freshConn : Option Disposition
  errorOnExit : Bool
deriving DecidableEq

/-- Full scope behaviour of `async with factory.get_pooled_connection()`,
derived from the source above together with the `asynccontextmanager`
protocol: on normal body completion `__aexit__` resumes the generator after
the `yield`; on a body exception `__aexit__` throws that exception into the
generator at the `yield`, and if the generator yields again instead of
finishing, `__aexit__` raises `RuntimeError("generator didn't stop after
athrow()")`, leaving the generator suspended (its `finally` not yet run).

Paths, for `poolingEnabled` (else-branch of the source):
* probe ok, body ok: resume after `yield`, `finally` puts `conn` back.
* probe ok, body raises: the exception is thrown into the generator at the
  first `yield`, is caught by `except Exception`, `conn.close()` runs, a
  replacement is created and `yield conn` runs a second time — so scope exit
  raises `RuntimeError` with the replacement still held by the generator
  (if the replacement creation itself fails, the error propagates through
  `finally`, which puts the already-closed pooled connection back).
* probe fails: `except Exception` closes the pooled connection and creates a
  replacement; the second `yield` is the one the body runs under, and a body
  exception there is NOT caught (the generator is already inside its
  `except` handler), so `finally` puts the replacement back and the body's
  exception propagates normally.

For `poolingEnabled = false`, the `try`/`finally` always closes the fresh
connection.  `createOk` tells whether `create_connection` succeeds where the
path calls it; `bodyOk` whether the caller's body completes without raising. -/
def get_pooled_connection_scope (poolingEnabled probeOk createOk bodyOk : Bool) :
    ScopeExit :=
  if poolingEnabled = false then
    if createOk then
      { pooledConn := none, freshConn := some Disposition.closedConn,
        errorOnExit := bodyOk = false }
    else
      { pooledConn := none, freshConn := none, errorOnExit := true }
  else
    if probeOk then
      if bodyOk then
        { pooledConn := some Disposition.inPool, freshConn := none,
          errorOnExit := false }
      else
        if createOk then
          { pooledConn := some Disposition.closedConn,
            freshConn := some Disposition.heldByGenerator, errorOnExit := true }
        else
          { pooledConn := some Disposition.closedInPool, freshConn := none,
            errorOnExit := true }
    else
      if createOk then
        { pooledConn := some Disposition.closedConn,
          freshConn := some Disposition.inPool, errorOnExit := bodyOk = false }
      else
        { pooledConn := some Disposition.closedInPool, freshConn := none,
          errorOnExit := true }

/-- A disposition satisfying the spec's scope-exit guarantee: the connection
was returned to the pool or closed. -/
def returnedOrClosed (d : Disposition) : Bool :=
  match d with
  | Disposition.inPool => true
  | Disposition.closedConn => true
  | Disposition.closedInPool => true
  | Disposition.heldByGenerator => false

/-- A concrete health record with one accumulated error, as left by a single
earlier probe failure under `max_errors = 5`. -/
def healthAfterOneError : ConnectionHealth :=
  { state := ConnectionState.healthy, last_check := 0, response_time_ms := 12,
    error_count := 1, last_error := some "boom", recovery_attempts := 0 }

/-- A concrete just-initialised health record (as written by
`start_monitoring`). -/
def healthInitial : ConnectionHealth :=
  { state := ConnectionState.unknown, last_check := 0, response_time_ms := 0,
    error_count := 0 }

/-- Claim C1 (code bug): `invalidate_cache` sets `last_updated = datetime.min`,
but `is_cache_valid` compares `timedelta.seconds` — the modulo-one-day
component — with the TTL, so whenever the current wall-clock time is within
the first `cache_ttl` seconds after midnight the invalidated entry reads as
*valid*.  Concretely: the entry written at second 63918719000 is invalidated,
and checked at second 63918720120 = 739800 days + 120 s after `datetime.min`
(i.e. at 00:02:00 of some day); the cache reports valid, while the claim says
invalidation forces invalidity at every later time. -/
theorem c1_code_bug_eval :
    (DatabaseInfo.invalidate_cache (dbInfoAt 63918719000)).is_cache_valid
        63918720120 = true ∧
    timedeltaSeconds 63918720120 = 120 := by
  decide

/-- Claim C2 (code bug): `is_cache_valid` agrees with `now − written_at < ttl`
at elapsed times 299 s (valid) and 301 s (invalid), but because it uses the
`.seconds` component of the timedelta it wraps every 86400 s: at an elapsed
time of exactly one day the entry reads as valid again, while the claim says
it remains invalid for every elapsed time beyond the TTL. -/
theorem c2_code_bug_eval :
    (dbInfoAt 1000000000).is_cache_valid (1000000000 + 299) = true ∧
    (dbInfoAt 1000000000).is_cache_valid (1000000000 + 301) = false ∧
    (dbInfoAt 1000000000).is_cache_valid (1000000000 + 86400) = true := by
  decide

/-- Claim C9 (confirmed): `_record_success` lowers `failure_count` to
`max(0, failure_count - 1)` — a guarded decrement, never a reset to zero of a
larger count — and leaves `last_failure_time`, the threshold and the cooldown
unchanged. -/
theorem c9_record_success_spec (s : CircuitBreakerState) :
    ((record_success s).failures : ℤ) = max 0 ((s.failures : ℤ) - 1) ∧
    (record_success s).last_failure = s.last_failure ∧
    (record_success s).threshold = s.threshold ∧
    (record_success s).timeout = s.timeout := by
  obtain ⟨f, lf, th, tm⟩ := s
  cases f with
  | zero => simp [record_success]
  | succ n =>
      refine ⟨?_, ?_, ?_, ?_⟩ <;>
        simp [record_success, Nat.succ_sub_one]

/-- Claim C4 (confirmed): `_is_circuit_breaker_open` returns true iff
`failure_count ≥ threshold` and `now − last_failure_time < cooldown`; when the
count is at or over threshold but the cooldown has elapsed, it resets the
count to 0 and returns false.  In the scenario with `threshold = 5` and
`cooldown = 60`, after five consecutive `_record_failure` calls every check
before the cooldown (measured from the fifth failure) reports open, and the
first check at or after the cooldown reports closed with the count reset. -/
theorem c4_circuit_breaker_spec (s : CircuitBreakerState) (now : ℚ) :
    ((is_circuit_breaker_open s now).1 = true ↔
      (s.threshold ≤ s.failures ∧ now - s.last_failure < s.timeout)) ∧
    (s.threshold ≤ s.failures → s.timeout ≤ now - s.last_failure →
      is_circuit_breaker_open s now = (false, { s with failures := 0 })) ∧
    (∀ t1 t2 t3 t4 t5 : ℚ, s.threshold = 5 → s.timeout = 60 →
      ((now - t5 < 60 →
        (is_circuit_breaker_open (record_five_failures s t1 t2 t3 t4 t5) now).1
          = true) ∧
       (60 ≤ now - t5 →
        is_circuit_breaker_open (record_five_failures s t1 t2 t3 t4 t5) now
          = (false, { record_five_failures s t1 t2 t3 t4 t5 with
                      failures := 0 })))) := by
  refine ⟨?_, ?_, ?_⟩
  · unfold is_circuit_breaker_open
    split_ifs with h1 h2 <;> simp_all
  · intro h1 h2
    unfold is_circuit_breaker_open
    rw [if_pos h1, if_neg (not_lt.mpr h2)]
  · intro t1 t2 t3 t4 t5 hth htm
    have hfields :
        (record_five_failures s t1 t2 t3 t4 t5).failures = s.failures + 5 ∧
        (record_five_failures s t1 t2 t3 t4 t5).last_failure = t5 ∧
        (record_five_failures s t1 t2 t3 t4 t5).threshold = s.threshold ∧
        (record_five_failures s t1 t2 t3 t4 t5).timeout = s.timeout := by
      simp [record_five_failures, record_failure]
    obtain ⟨hf, hl, ht, hw⟩ := hfields
    constructor
    · intro hcool
      unfold is_circuit_breaker_open
      rw [if_pos (by rw [hf, ht, hth]; omega), if_pos (by rw [hl, hw, htm]; exact hcool)]
    · intro hcool
      unfold is_circuit_breaker_open
      rw [if_pos (by rw [hf, ht, hth]; omega),
        if_neg (by rw [hl, hw, htm]; exact not_lt.mpr hcool)]

/-- Witness for C4 at a concrete breaker: `threshold = 5`, `cooldown = 60`, a
fresh client state driven through five failures at times 1..5, checked while
the cooldown is active (time 10) and after it has elapsed (time 100). -/
theorem c4_circuit_breaker_witness :
    (is_circuit_breaker_open
      (record_five_failures ⟨0, 0, 5, 60⟩ 1 2 3 4 5) 10).1 = true ∧
    is_circuit_breaker_open (record_five_failures ⟨0, 0, 5, 60⟩ 1 2 3 4 5) 100
      = (false, { record_five_failures ⟨0, 0, 5, 60⟩ 1 2 3 4 5 with
                  failures := 0 }) := by
  have h := (c4_circuit_breaker_spec ⟨0, 0, 5, 60⟩ 10).2.2 1 2 3 4 5 rfl rfl
  have h' := (c4_circuit_breaker_spec ⟨0, 0, 5, 60⟩ 100).2.2 1 2 3 4 5 rfl rfl
  exact ⟨h.1 (by norm_num), h'.2 (by norm_num)⟩

/-- Claim C3 (counterexample): with `max_errors = 5` the DEGRADED cutoff in
the source is `max_errors // 2 = 2` (floor division), not the arithmetic half
2.5.  A probe failure on a record with one accumulated error yields
`error_count = 2` and state DEGRADED, whereas the claim says an error count
of 2 is strictly below the cutoff and the state stays HEALTHY. -/
theorem c3_counterexample :
    (check_connection_health 5 healthAfterOneError (some "probe failed") 10 25).error_count
        = 2 ∧
    (check_connection_health 5 healthAfterOneError (some "probe failed") 10 25).state
        = ConnectionState.degraded ∧
    ConnectionState.degraded ≠ ConnectionState.healthy := by
  refine ⟨rfl, rfl, by decide⟩

/-- Claim C3 (amended): on a probe failure `error_count` is incremented by
one and `last_error` is set to the failure message; the new state is
UNHEALTHY iff the new count is at least `max_errors`, DEGRADED iff it lies in
`[max_errors // 2, max_errors)` where `//` is floor division (so for
`max_errors = 5` a count of 2 is already DEGRADED), and HEALTHY iff it is
strictly below `max_errors // 2`. -/
theorem c3_amended_spec (max_errors : Nat) (h : ConnectionHealth)
    (msg : String) (now rt : ℚ) :
    ((check_connection_health max_errors h (some msg) now rt).error_count
        = h.error_count + 1) ∧
    ((check_connection_health max_errors h (some msg) now rt).last_error
        = some msg) ∧
    ((check_connection_health max_errors h (some msg) now rt).state
        = ConnectionState.unhealthy ↔ max_errors ≤ h.error_count + 1) ∧
    ((check_connection_health max_errors h (some msg) now rt).state
        = ConnectionState.degraded ↔
      max_errors / 2 ≤ h.error_count + 1 ∧ h.error_count + 1 < max_errors) ∧
    ((check_connection_health max_errors h (some msg) now rt).state
        = ConnectionState.healthy ↔ h.error_count + 1 < max_errors / 2) := by
  unfold check_connection_health
  refine ⟨rfl, rfl, ?_, ?_, ?_⟩ <;>
    · dsimp only
      split_ifs with h1 h2 <;> simp_all <;> omega

/-- Claim C5 (counterexample): with pooling disabled, `get_pooled_connection`
yields the freshly created connection without ever running the `SELECT 1`
validation probe — an unvalidated connection is yielded, against the claim
that every yielded connection has passed the probe. -/
theorem c5_counterexample :
    get_pooled_connection_entry false true (Except.ok ())
      = AcquireEntry.yielded ConnOrigin.fresh false ∧
    AcquireEntry.yielded ConnOrigin.fresh false
      ≠ AcquireEntry.yielded ConnOrigin.fresh true := by
  decide

/-- Claim C5 (amended): every connection yielded by `get_pooled_connection`
either passed the `SELECT 1` validation probe or was freshly created by the
factory on this call (the pooling-disabled path, or the replacement after a
failed probe); a *pooled* connection is only ever yielded after passing the
probe, and when connection creation fails the creation error propagates
instead of a yield. -/
theorem c5_amended_spec (pe pk : Bool) (cr : Except FactoryError Unit)
    (o : ConnOrigin) (pr : Bool) :
    (get_pooled_connection_entry pe pk cr = AcquireEntry.yielded o pr →
      pr = true ∨ o = ConnOrigin.fresh) ∧
    (get_pooled_connection_entry pe pk cr
        = AcquireEntry.yielded ConnOrigin.pooled pr → pr = true) ∧
    (∀ e, get_pooled_connection_entry pe pk cr = AcquireEntry.creationFailed e →
      cr = Except.error e) := by
  cases pe <;> cases pk <;> cases cr <;>
    simp [get_pooled_connection_entry] <;> intro h <;> simp_all

/-- Witness for the amended C5: the pooling-disabled path with a successful
creation yields a fresh, unprobed connection, and the disjunction of the
amended claim holds of it. -/
theorem c5_amended_witness :
    false = true ∨ ConnOrigin.fresh = ConnOrigin.fresh :=
  (c5_amended_spec false true (Except.ok ()) ConnOrigin.fresh false).1 (by decide)

/-- Claim C7 (code bug): when every `connect()` call hits a `pyodbc.Error`,
the tenacity-decorated `create_connection` makes its three attempts with
backoff waits of 2 s and 4 s, and then — because the decorator is used with
its default `reraise=False` — raises `tenacity.RetryError` wrapping the last
`ConnectionError`, not the `ConnectionError` itself that the claim (and the
function's own docstring) promise. -/
theorem c7_code_bug_eval :
    create_connection (fun _ => some "timeout")
      = (Except.error (FactoryError.retryError (FactoryError.connectionError
          (connectErrorMsg "timeout"))), [2, 4]) ∧
    (Except.error (FactoryError.retryError (FactoryError.connectionError
        (connectErrorMsg "timeout"))) : Except FactoryError Unit)
      ≠ Except.error (FactoryError.connectionError (connectErrorMsg "timeout")) := by
  constructor
  · show (_, waitExponential 1 :: waitExponential 2 :: []) = _
    refine Prod.ext rfl ?_
    show [waitExponential 1, waitExponential 2] = [2, 4]
    norm_num [waitExponential]
  · intro h
    have h2 := Except.error.inj h
    cases h2

/-- Claim C8 (code bug): in the pooled branch the `except Exception` clause
encloses the `yield`, so an exception raised by the caller's body is thrown
into the generator and caught there: the leased connection is closed, a
replacement is created and yielded a second time, and the context-manager
protocol then raises `RuntimeError` with the replacement connection neither
returned to the pool nor closed at scope exit — against the claim that every
path returns or closes the connection. -/
theorem c8_code_bug_eval :
    get_pooled_connection_scope true true true false
      = { pooledConn := some Disposition.closedConn,
          freshConn := some Disposition.heldByGenerator, errorOnExit := true } ∧
    returnedOrClosed Disposition.heldByGenerator = false := by
  decide

/-- Claim C10 (confirmed): an identity with no health record — never
monitored, or deleted by `stop_monitoring` — makes `is_connection_healthy`
return `False` and `get_connection_health` return nothing (both are total:
no lookup error is raised). -/
theorem c10_missing_record_spec (m : HealthMap) (id : String) :
    (get_connection_health m id = none → is_connection_healthy m id = false) ∧
    get_connection_health (stop_monitoring_health m id) id = none ∧
    is_connection_healthy (stop_monitoring_health m id) id = false := by
  have hdel : ∀ m' : HealthMap,
      get_connection_health (stop_monitoring_health m' id) id = none := by
    intro m'
    induction m' with
    | nil => rfl
    | cons p rest ih =>
        obtain ⟨k, v⟩ := p
        by_cases hk : k = id
        · simpa [stop_monitoring_health, hk] using ih
        · simpa [stop_monitoring_health, get_connection_health, dictGet, hk] using ih
  have hnone : ∀ m' : HealthMap, get_connection_health m' id = none →
      is_connection_healthy m' id = false := by
    intro m' hm
    unfold is_connection_healthy
    rw [hm]
  exact ⟨hnone m, hdel m, hnone _ (hdel m)⟩

/-- Witness for C10: the empty monitor map, and a singleton map for
"primary" after `stop_monitoring("primary")`. -/
theorem c10_missing_record_witness :
    is_connection_healthy [] "primary" = false ∧
    get_connection_health
      (stop_monitoring_health [("primary", healthInitial)] "primary") "primary"
      = none := by
  exact ⟨(c10_missing_record_spec [] "primary").1 rfl,
    (c10_missing_record_spec [("primary", healthInitial)] "primary").2.1⟩

/-- Helper: the backoff list for consecutive attempt indices starting at
`attempt ≥ 2` splits off its head. -/
theorem recover_waits_split (base : ℚ) (attempt n : Nat) (h2 : 2 ≤ attempt) :
    (List.range (n + 1)).map (fun j => base * 2 ^ (attempt - 1 + j))
      = base * 2 ^ (attempt - 1)
          :: (List.range n).map (fun j => base * 2 ^ (attempt + j)) := by
  rw [List.range_succ_eq_map, List.map_cons, List.map_map]
  refine congrArg₂ _ (by norm_num) ?_
  apply List.map_congr_left
  intro j _
  have he : attempt - 1 + Nat.succ j = attempt + j := by omega
  simp [Function.comp, he]

/-- Helper: when every attempt in the remaining window fails, the loop of
`recover_connection` makes exactly the remaining `fuel` attempts, waits
before each (the current attempt index being ≥ 2), returns false, and
records the final attempt index with failure. -/
theorem recover_aux_all_fail (outcome : Nat → Bool) (base : ℚ) :
    ∀ fuel attempt, 2 ≤ attempt → 1 ≤ fuel →
    (∀ j, attempt ≤ j → j ≤ attempt + (fuel - 1) → outcome j = false) →
    recover_connection_aux outcome base attempt fuel =
      ⟨false, fuel,
       (List.range fuel).map (fun j => base * 2 ^ (attempt - 1 + j)),
       some ⟨attempt + (fuel - 1), false⟩⟩ := by
  intro fuel
  induction fuel with
  | zero => intro attempt _ h1 _; omega
  | succ n ih =>
      intro attempt h2 _ hout
      have ho : outcome attempt = false := hout attempt le_rfl (by omega)
      have h1lt : 1 < attempt := by omega
      rcases Nat.eq_zero_or_pos n with hn | hn
      · subst hn
        simp [recover_connection_aux, ho, h1lt, List.range_succ]
      · have hn' : ¬ n = 0 := by omega
        have ihr := ih (attempt + 1) (by omega) hn
          (fun j hj1 hj2 => hout j (by omega) (by omega))
        have he1 : attempt + 1 - 1 = attempt := by omega
        have he2 : attempt + 1 + (n - 1) = attempt + (n + 1 - 1) := by omega
        rw [recover_waits_split base attempt n h2]
        simp [recover_connection_aux, ho, hn', ihr, he1, he2, h1lt]

/-- Helper: when every attempt before `k` fails and attempt `k` (inside the
remaining window) succeeds, the loop of `recover_connection` returns true
immediately at attempt `k`, records `k` with success, and has waited before
each of the attempts made (the current attempt index being ≥ 2). -/
theorem recover_aux_first_success (outcome : Nat → Bool) (base : ℚ) :
    ∀ fuel attempt k, 2 ≤ attempt → attempt ≤ k → k ≤ attempt + (fuel - 1) →
    1 ≤ fuel →
    (∀ j, attempt ≤ j → j < k → outcome j = false) → outcome k = true →
    recover_connection_aux outcome base attempt fuel =
      ⟨true, k + 1 - attempt,
       (List.range (k + 1 - attempt)).map (fun j => base * 2 ^ (attempt - 1 + j)),
       some ⟨k, true⟩⟩ := by
  intro fuel
  induction fuel with
  | zero => intro attempt k _ _ _ h1 _ _; omega
  | succ n ih =>
      intro attempt k h2 hak hkf _ hprev hsucc
      have h1lt : 1 < attempt := by omega
      by_cases hk : k = attempt
      · subst hk
        have he : k + 1 - k = 1 := by omega
        simp [recover_connection_aux, hsucc, h1lt, he, List.range_succ]
      · have hlt : attempt < k := by omega
        have ho : outcome attempt = false := hprev attempt le_rfl hlt
        have hn' : ¬ n = 0 := by omega
        have ihr := ih (attempt + 1) k (by omega) (by omega) (by omega)
          (by omega) (fun j hj1 hj2 => hprev j (by omega) hj2) hsucc
        have he1 : attempt + 1 - 1 = attempt := by omega
        have he3 : k + 1 - attempt = (k - attempt) + 1 := by omega
        have he4 : k + 1 - (attempt + 1) = k - attempt := by omega
        rw [he3, recover_waits_split base attempt (k - attempt) h2]
        simp [recover_connection_aux, ho, hn', ihr, he1, he4, h1lt]

/-- Claim C6 (confirmed): `recover_connection` with attempt budget
`max_retry_attempts = maxA ≥ 1` and base delay `base` satisfies the claim.
All-failing factory: exactly `maxA` creation attempts occur, a wait of
`base · 2^(k-1)` seconds happens before each attempt `k > 1` (so the waits,
in order, are `base·2^1, ..., base·2^(maxA-1)`), the call returns false, and
the recorded stats are `attempts_used = maxA`, `success = false`.  If the
first succeeding attempt is `k ≤ maxA`, the call returns true immediately
after `k` attempts with waits `base·2^1, ..., base·2^(k-1)` and records
`attempts_used = k`, `success = true`. -/
theorem c6_recover_connection_spec (outcome : Nat → Bool) (maxA : Nat)
    (base : ℚ) :
    (1 ≤ maxA → (∀ k, 1 ≤ k → k ≤ maxA → outcome k = false) →
      recover_connection outcome maxA base =
        ⟨false, maxA,
         (List.range (maxA - 1)).map (fun j => base * 2 ^ (j + 1)),
         some ⟨maxA, false⟩⟩) ∧
    (∀ k, 1 ≤ k → k ≤ maxA →
      (∀ j, 1 ≤ j → j < k → outcome j = false) → outcome k = true →
      recover_connection outcome maxA base =
        ⟨true, k,
         (List.range (k - 1)).map (fun j => base * 2 ^ (j + 1)),
         some ⟨k, true⟩⟩) := by
  have hfun : (fun j => base * 2 ^ (1 + j)) = fun j => base * 2 ^ (j + 1) := by
    funext j
    rw [Nat.add_comm]
  constructor
  · intro h1 hall
    obtain ⟨m, rfl⟩ : ∃ m, maxA = m + 1 := ⟨maxA - 1, by omega⟩
    have ho1 : outcome 1 = false := hall 1 le_rfl (by omega)
    rcases Nat.eq_zero_or_pos m with hm | hm
    · subst hm
      simp [recover_connection, recover_connection_aux, ho1]
    · have hm' : ¬ m = 0 := by omega
      have hr := recover_aux_all_fail outcome base m 2 le_rfl hm
        (fun j hj1 hj2 => hall j (by omega) (by omega))
      have he5 : 2 + (m - 1) = m + 1 := by omega
      unfold recover_connection
      rw [← hfun]
      simp [recover_connection_aux, ho1, hm', hr, he5]
  · intro k hk1 hk2 hprev hsucc
    obtain ⟨m, rfl⟩ : ∃ m, maxA = m + 1 := ⟨maxA - 1, by omega⟩
    by_cases hk : k = 1
    · subst hk
      simp [recover_connection, recover_connection_aux, hsucc]
    · have hm : 1 ≤ m := by omega
      have hm' : ¬ m = 0 := by omega
      have ho1 : outcome 1 = false := hprev 1 le_rfl (by omega)
      have hr := recover_aux_first_success outcome base m 2 k le_rfl
        (by omega) (by omega) hm (fun j hj1 hj2 => hprev j (by omega) hj2) hsucc
      have he6 : k + 1 - 2 = k - 1 := by omega
      have he7 : k - 1 + 1 = k := by omega
      unfold recover_connection
      rw [← hfun]
      simp [recover_connection_aux, ho1, hm', hr, he6, he7]

/-- Witness for C6 with the constructor defaults `max_retry_attempts = 3`,
`base_delay = 2.0`: an all-failing factory gives 3 attempts, waits 4 s and
8 s, result false, stats (3, failed); a factory succeeding on its second
attempt gives 2 attempts, a single 4 s wait, result true, stats (2, ok). -/
theorem c6_recover_connection_witness :
    recover_connection (fun _ => false) 3 2 = ⟨false, 3, [4, 8], some ⟨3, false⟩⟩ ∧
    recover_connection (fun k => decide (k = 2)) 3 2
      = ⟨true, 2, [4], some ⟨2, true⟩⟩ := by
  constructor
  · have h := (c6_recover_connection_spec (fun _ => false) 3 2).1
      (by norm_num) (fun k h1 h2 => rfl)
    rw [h]
    norm_num [List.range_succ]
  · have h := (c6_recover_connection_spec (fun k => decide (k = 2)) 3 2).2 2
      (by norm_num) (by norm_num)
      (fun j h1 h2 => by
        obtain rfl : j = 1 := by omega
        rfl)
      (by rfl)
    rw [h]
    norm_num [List.range_succ]
